import Mathlib

/-!
Verification of the task-management service core against its specification.

The definitions below are a shallow embedding of the TypeScript sources:

* `src/unnamed/part_002` — `TasksService` (create, findOne, update, remove,
  updateStatus), including its use of the cache and the BullMQ queue named
  `task-processing` (injected at line 29; registered in
  `src/unnamed/part_000`, `ScheduledTasksModule`).
* `src/src/common/services/cache.service.ts` — `CacheService` (get, set,
  delete, getOrSet) with namespace `app`.

State that in the program lives in external collaborators (the TypeORM
repository rows, the cache-manager entries, the queue) is threaded
explicitly through an `AppState` record.  An operation that in TypeScript
can throw (`NotFoundException`) returns an `Except` result paired with the
state as it is at the moment of the throw.
-/

namespace TaskApp

/-- Modelled from the spec: the status enum of the Task entity
(`src/modules/tasks/enums/task-status.enum.ts` is not under `src/`); the
spec data model lists PENDING, IN_PROGRESS, COMPLETED, OVERDUE.  The values
are non-empty strings, so a supplied status is always truthy in the
JavaScript sense. -/
inductive TaskStatus where
  | PENDING
  | IN_PROGRESS
  | COMPLETED
  | OVERDUE
deriving DecidableEq

/-- Modelled from the spec: the priority enum
(`task-priority.enum.ts` is not under `src/`): LOW, MEDIUM, HIGH. -/
inductive TaskPriority where
  | LOW
  | MEDIUM
  | HIGH
deriving DecidableEq

/-- The string value of a status, as it is carried in queue payloads
(the TypeScript enum values). -/
def TaskStatus.toStr : TaskStatus → String
  | .PENDING => "PENDING"
  | .IN_PROGRESS => "IN_PROGRESS"
  | .COMPLETED => "COMPLETED"
  | .OVERDUE => "OVERDUE"

/-- Modelled from the spec: the Task entity
(`src/modules/tasks/entities/task.entity.ts` is not under `src/`).  The
fields are the ones the spec data model lists and `TasksService` reads and
writes: id, title, description (optional), status, priority, dueDate
(optional).  The `user` relation, `ownerId` and the store-managed
timestamps are touched by no claim and are omitted.  Dates are carried as
their source strings (`new Date(x)` is modelled as the identity on the
date value).  Note the entity has no version field: the spec itself states
the concurrency token is not present in the naive source. -/
structure Task where
  id : String
  title : String
  description : Option String
  status : TaskStatus
  priority : TaskPriority
  dueDate : Option String
deriving DecidableEq

/-- Modelled from the spec: `UpdateTaskDto` (`dto/update-task.dto.ts` is
not under `src/`).  All fields optional, forming a patch. -/
structure UpdateTaskDto where
  title : Option String
  description : Option String
  status : Option TaskStatus
  priority : Option TaskPriority
  dueDate : Option String
deriving DecidableEq

/-- Modelled from the spec: `CreateTaskDto` (`dto/create-task.dto.ts` is
not under `src/`).  Title required (non-empty text per the spec data
model); description, status and dueDate optional; priority supplied. -/
structure CreateTaskDto where
  title : String
  description : Option String
  status : Option TaskStatus
  priority : TaskPriority
  dueDate : Option String
deriving DecidableEq

/-- Errors a `TasksService` operation can surface.  `notFound id` embeds
the `NotFoundException` thrown in `findOne` (part_002 line 64).
`versionConflict` is modelled from the spec: the VersionConflict outcome
of the error taxonomy; the source defines no such error and no operation
of the source ever constructs it. -/
inductive ServiceError where
  | notFound (id : String)
  | versionConflict
deriving DecidableEq

/-- A message enqueued through `taskQueue.add` (part_002 lines 41 and 96).
`queueName` is the BullMQ queue token from `@InjectQueue` (part_002 line
29, registered in part_000 line 14); `jobName` is the first argument of
`add`; the payload object is modelled as an association list of its
fields. -/
structure QueueMessage where
  queueName : String
  jobName : String
  payload : List (String × String)
deriving DecidableEq

/-- The external state `TasksService` acts on: the repository rows, the
cache entries (keyed by the namespaced cache key, holding the cached task
projection) and the queue of published messages. -/
structure AppState where
  store : List Task
  cache : List (String × Task)
  queue : List QueueMessage
deriving DecidableEq

/-- `CacheService.buildKey` (cache.service.ts line 13): prepends the
namespace `app` to the key. -/
def buildKey (key : String) : String := "app:" ++ key

/-- Lookup of a cache entry, as `cacheManager.get` on the namespaced key.
In this Task-typed view a stored task deserializes back to itself (its
JSON serialization is a non-empty string that parses), so a present entry
is a hit. -/
def cacheLookup (cache : List (String × Task)) (key : String) : Option Task :=
  (cache.find? (fun kv => kv.1 == buildKey key)).map Prod.snd

/-- `CacheService.set` on the namespaced key: the new entry shadows any
older one (lookup takes the first match). -/
def cacheInsert (cache : List (String × Task)) (key : String) (v : Task) :
    List (String × Task) :=
  (buildKey key, v) :: cache

/-- `tasksRepository.count/findOne({ where: { id } })`: the row with the
given id, if any. -/
def storeFind (store : List Task) (id : String) : Option Task :=
  store.find? (fun t => t.id == id)

/-- `tasksRepository.save(t)`: updates the row with `t.id` if one exists,
otherwise inserts. -/
def storeSave (store : List Task) (t : Task) : List Task :=
  if (store.find? (fun r => r.id == t.id)).isSome then
    store.map (fun r => if r.id == t.id then t else r)
  else
    store ++ [t]

/-- `tasksRepository.remove(task)`: deletes the row with the given id. -/
def storeRemove (store : List Task) (id : String) : List Task :=
  store.filter (fun r => !(r.id == id))

/-- `CacheService.getOrSet` (cache.service.ts lines 63-75) as used by
`TasksService.findOne`: consult the cache; on a hit return the cached
value; on a miss run the fetcher, and if it returns a value store it and
return it.  A fetcher that throws propagates its error, and the `set` on
line 73 is then never reached.  The TTL argument is carried but the model
has no clock, so it does not affect the state. -/
def getOrSet (key : String)
    (fetcher : AppState → Except ServiceError Task × AppState)
    (_ttlSeconds : Nat) (s : AppState) :
    Except ServiceError Task × AppState :=
  match cacheLookup s.cache key with
  | some cached => (.ok cached, s)
  | none =>
    match fetcher s with
    | (.error e, s1) => (.error e, s1)
    | (.ok value, s1) =>
      (.ok value, { s1 with cache := cacheInsert s1.cache key value })

/-- The populate function passed by `TasksService.findOne` (part_002 lines
60-73): `count` on the id, throw `NotFoundException` when the count is 0,
otherwise fetch and return the row. -/
def taskFetcher (id : String) (s : AppState) :
    Except ServiceError Task × AppState :=
  match storeFind s.store id with
  | none => (.error (.notFound id), s)
  | some t => (.ok t, s)

/-- `TasksService.findOne` (part_002 lines 57-76): read-through on cache
key `task:` + id with TTL 300. -/
def findOne (id : String) (s : AppState) :
    Except ServiceError Task × AppState :=
  getOrSet ("task:" ++ id) (taskFetcher id) 300 s

/-- The message that `taskQueue.add` with job name `task-status-update` publishes for a
task (part_002 lines 41-44 and 96-99): payload fields `taskId` and
`status`, on the queue registered as `task-processing`. -/
def statusMsg (t : Task) : QueueMessage :=
  { queueName := "task-processing"
    jobName := "task-status-update"
    payload := [("taskId", t.id), ("status", t.status.toStr)] }

/-- The patch application of `TasksService.update` (part_002 lines 86-90):
each field is assigned only when the DTO field is truthy, so a supplied
empty string (falsy in JavaScript) is skipped; the enum fields are applied
whenever present, their string values being non-empty.  The five
assignments are independent, so they are rendered field-wise. -/
def applyPatch (task : Task) (dto : UpdateTaskDto) : Task :=
  { id := task.id
    title :=
      match dto.title with
      | some v => if v = "" then task.title else v
      | none => task.title
    description :=
      match dto.description with
      | some v => if v = "" then task.description else some v
      | none => task.description
    status :=
      match dto.status with
      | some v => v
      | none => task.status
    priority :=
      match dto.priority with
      | some v => v
      | none => task.priority
    dueDate :=
      match dto.dueDate with
      | some v => if v = "" then task.dueDate else some v
      | none => task.dueDate }

/-- `TasksService.create` (part_002 lines 34-47): build the task from the
DTO (`genId` is the store-generated id; the entity default status is
PENDING, modelled from the spec since the entity file is not under
`src/`), save it, and unconditionally add a `task-status-update` job to
the queue.  The cache is not touched. -/
def create (dto : CreateTaskDto) (genId : String) (s : AppState) :
    Task × AppState :=
  let savedTask : Task :=
    { id := genId
      title := dto.title
      description := dto.description
      status := dto.status.getD TaskStatus.PENDING
      priority := dto.priority
      dueDate := dto.dueDate }
  (savedTask,
   { store := storeSave s.store savedTask
     cache := s.cache
     queue := s.queue ++ [statusMsg savedTask] })

/-- `TasksService.update` (part_002 lines 78-103): read the task through
`findOne` (so through the cache), apply the patch, save, and enqueue a
`task-status-update` job only when the status changed.  The cache entry is
never deleted or overwritten. -/
def update (id : String) (dto : UpdateTaskDto) (s : AppState) :
    Except ServiceError Task × AppState :=
  match findOne id s with
  | (.error e, s1) => (.error e, s1)
  | (.ok task, s1) =>
    let updatedTask := applyPatch task dto
    let s2 : AppState := { s1 with store := storeSave s1.store updatedTask }
    let s3 : AppState :=
      if task.status ≠ updatedTask.status then
        { s2 with queue := s2.queue ++ [statusMsg updatedTask] }
      else s2
    (.ok updatedTask, s3)

/-- `TasksService.remove` (part_002 lines 105-109): read the task through
`findOne`, then delete the row.  Neither the cache nor the queue is
touched. -/
def remove (id : String) (s : AppState) :
    Except ServiceError Unit × AppState :=
  match findOne id s with
  | (.error e, s1) => (.error e, s1)
  | (.ok task, s1) => (.ok (), { s1 with store := storeRemove s1.store task.id })

/-- `TasksService.updateStatus` (part_002 lines 117-122): read the task
through `findOne`, overwrite its status with the supplied one (the source
casts the string with `as any`, performing no check), and save. -/
def updateStatus (id : String) (status : TaskStatus) (s : AppState) :
    Except ServiceError Task × AppState :=
  match findOne id s with
  | (.error e, s1) => (.error e, s1)
  | (.ok task, s1) =>
    let updated : Task := { task with status := status }
    (.ok updated, { s1 with store := storeSave s1.store updated })

/-- Failure of a cache-manager backend operation (a Redis timeout or
connection error surfacing as a rejected promise). -/
inductive CacheOpError where
  | backendFailure
deriving DecidableEq

/-- The injected `cacheManager` (an external collaborator of
`CacheService`), at the level it is actually used: string entries keyed by
the namespaced key, plus flags saying whether the backend call of each
operation fails (throws). -/
structure BackendState where
  entries : List (String × String)
  getFails : Bool
  setFails : Bool
  delFails : Bool
deriving DecidableEq

/-- `cacheManager.get` (as awaited on cache.service.ts line 19). -/
def backendGet (bd : BackendState) (k : String) :
    Except CacheOpError (Option String) :=
  if bd.getFails then .error .backendFailure
  else .ok ((bd.entries.find? (fun kv => kv.1 == k)).map Prod.snd)

/-- `cacheManager.set` (cache.service.ts line 39). -/
def backendSet (bd : BackendState) (k v : String) :
    Except CacheOpError BackendState :=
  if bd.setFails then .error .backendFailure
  else .ok { bd with entries := (k, v) :: bd.entries }

/-- `cacheManager.del` (cache.service.ts line 48). -/
def backendDel (bd : BackendState) (k : String) :
    Except CacheOpError BackendState :=
  if bd.delFails then .error .backendFailure
  else .ok { bd with entries := bd.entries.filter (fun kv => !(kv.1 == k)) }

/-- What `CacheService.get` hands back on a hit: the parsed value when
`JSON.parse` succeeds, and otherwise — by the catch on line 30 — the raw
cached string itself (`return cached as unknown as T`), not a miss. -/
inductive ReadValue (V : Type) where
  | parsed (v : V)
  | raw (s : String)
deriving DecidableEq

/-- `CacheService.get` (cache.service.ts lines 17-32).  There is no
try/catch around `cacheManager.get`, so a backend failure propagates.  A
falsy cached value (absent, or the empty string) is a miss.  `JSON.parse`
is external; it is passed in as `parse`. -/
def svcGet (V : Type) (parse : String → Option V) (bd : BackendState)
    (key : String) : Except CacheOpError (Option (ReadValue V)) :=
  match backendGet bd (buildKey key) with
  | .error e => .error e
  | .ok none => .ok none
  | .ok (some cached) =>
    if cached = "" then .ok none
    else
      match parse cached with
      | some v => .ok (some (.parsed v))
      | none => .ok (some (.raw cached))

/-- `CacheService.set` (cache.service.ts lines 34-44): the backend call is
wrapped in try/catch; a failure is logged and swallowed, leaving the
backend as it was, and the method still resolves. -/
def svcSet (bd : BackendState) (key data : String) (_ttlSeconds : Nat) :
    Except CacheOpError BackendState :=
  match backendSet bd (buildKey key) data with
  | .error _ => .ok bd
  | .ok bd1 => .ok bd1

/-- `CacheService.delete` (cache.service.ts lines 46-50): the backend call
has no try/catch, so a backend failure propagates to the caller. -/
def svcDelete (bd : BackendState) (key : String) :
    Except CacheOpError BackendState :=
  backendDel bd (buildKey key)

/-!
Interleaving model of `CacheService.getOrSet` (cache.service.ts lines
63-75) for the single-flight question.  Each `await` in the method body is
a suspension point of the event loop, so one call decomposes into three
atomic segments: the cache read on line 68 (with the hit return on line
69), the fetcher invocation on line 72, and the `set` on line 73.  Two
concurrent calls for the same key are two such programs over a shared
cache; a schedule says which caller runs its next segment.  `fetchCount`
counts fetcher invocations, i.e. store fetches of the claim.
-/

/-- The program counter of one in-flight `getOrSet` call.  Values are the
fetched payloads, represented by `Nat`. -/
inductive FlightPhase where
  | atGet
  | atFetch
  | atSet (v : Nat)
  | finished (v : Nat)
deriving DecidableEq

/-- The state shared by concurrent callers of the same key: the cache
entry of that key and the number of fetcher invocations so far. -/
structure FlightShared where
  cacheEntry : Option Nat
  fetchCount : Nat
deriving DecidableEq

/-- One atomic segment of `getOrSet`: line 68/69 (read, return on hit),
line 72 (fetch), line 73 (set). -/
def flightStep (fetched : Nat) :
    FlightPhase → FlightShared → FlightPhase × FlightShared
  | .atGet, sh =>
    match sh.cacheEntry with
    | some v => (.finished v, sh)
    | none => (.atFetch, sh)
  | .atFetch, sh => (.atSet fetched, { sh with fetchCount := sh.fetchCount + 1 })
  | .atSet v, sh => (.finished v, { sh with cacheEntry := some v })
  | .finished v, sh => (.finished v, sh)

/-- Two concurrent `getOrSet` callers for one key. -/
structure TwoCallers where
  a : FlightPhase
  b : FlightPhase
  shared : FlightShared
deriving DecidableEq

/-- Run a schedule: `true` steps caller `a`, `false` steps caller `b`. -/
def runSchedule (fetched : Nat) : List Bool → TwoCallers → TwoCallers
  | [], st => st
  | c :: rest, st =>
    if c then
      let p := flightStep fetched st.a st.shared
      runSchedule fetched rest { st with a := p.1, shared := p.2 }
    else
      let p := flightStep fetched st.b st.shared
      runSchedule fetched rest { st with b := p.1, shared := p.2 }

/-- Both callers about to read, cold cache, no fetches yet. -/
def coldStart : TwoCallers :=
  { a := .atGet, b := .atGet, shared := { cacheEntry := none, fetchCount := 0 } }

/-- Both callers about to read, the key already cached (value 5). -/
def warmStart : TwoCallers :=
  { a := .atGet, b := .atGet, shared := { cacheEntry := some 5, fetchCount := 0 } }

/-! Concrete fixtures used by the closed theorems below. -/

/-- Empty store, cold cache, empty queue. -/
def emptyState : AppState := { store := [], cache := [], queue := [] }

/-- A patch that supplies no field. -/
def dtoNone : UpdateTaskDto :=
  { title := none, description := none, status := none,
    priority := none, dueDate := none }

/-- A patch supplying only a new title. -/
def dtoTitleNew : UpdateTaskDto :=
  { title := some "new", description := none, status := none,
    priority := none, dueDate := none }

/-- A patch supplying only a status. -/
def statusOnlyDto (st : TaskStatus) : UpdateTaskDto :=
  { title := none, description := none, status := some st,
    priority := none, dueDate := none }

/-- A patch whose description is present but is the empty string. -/
def dtoEmptyDescription : UpdateTaskDto :=
  { title := none, description := some "", status := none,
    priority := none, dueDate := none }

/-- A pending task with title `old` and description `old`. -/
def t1ex : Task :=
  { id := "a1", title := "old", description := some "old",
    status := .PENDING, priority := .LOW, dueDate := none }

/-- A completed task. -/
def tCompleted : Task :=
  { id := "a1", title := "T", description := none,
    status := .COMPLETED, priority := .LOW, dueDate := none }

/-- A create DTO that explicitly supplies the default status PENDING. -/
def dtoCreatePending : CreateTaskDto :=
  { title := "T", description := none, status := some .PENDING,
    priority := .LOW, dueDate := none }

/-- A create DTO that supplies no status, so the entity default PENDING
applies. -/
def dtoCreateNoStatus : CreateTaskDto :=
  { title := "T", description := none, status := none,
    priority := .LOW, dueDate := none }

/-! Helper lemmas about the embedding, shared by the claim proofs. -/

theorem cacheLookup_insert_self (c : List (String × Task)) (k : String) (v : Task) :
    cacheLookup (cacheInsert c k v) k = some v := by
  simp [cacheLookup, cacheInsert, List.find?]

theorem findOne_hit (id : String) (s : AppState) (t : Task)
    (hc : cacheLookup s.cache ("task:" ++ id) = some t) :
    findOne id s = (.ok t, s) := by
  simp [findOne, getOrSet, hc]

theorem findOne_cold (id : String) (s : AppState) (t : Task)
    (hc : cacheLookup s.cache ("task:" ++ id) = none)
    (hs : storeFind s.store id = some t) :
    findOne id s =
      (.ok t, { s with cache := cacheInsert s.cache ("task:" ++ id) t }) := by
  simp [findOne, getOrSet, taskFetcher, hc, hs]

theorem findOne_miss (id : String) (s : AppState)
    (hc : cacheLookup s.cache ("task:" ++ id) = none)
    (hs : storeFind s.store id = none) :
    findOne id s = (.error (.notFound id), s) := by
  simp [findOne, getOrSet, taskFetcher, hc, hs]

theorem find?_append_of_none {α : Type} (p : α → Bool) (l1 l2 : List α)
    (h : l1.find? p = none) : (l1 ++ l2).find? p = l2.find? p := by
  induction l1 with
  | nil => simp
  | cons a tl ih =>
    rcases hpa : p a with _ | _
    · simp only [List.cons_append, List.find?_cons, hpa] at h ⊢
      exact ih h
    · simp only [List.find?_cons, hpa] at h
      exact Option.noConfusion h

theorem storeFind_append_new (store : List Task) (t : Task)
    (h : storeFind store t.id = none) :
    storeFind (store ++ [t]) t.id = some t := by
  simp only [storeFind] at h ⊢
  rw [find?_append_of_none _ _ _ h]
  simp [List.find?]

theorem findOne_queue_eq (id : String) (s : AppState) :
    ((findOne id s).2).queue = s.queue := by
  rcases h1 : cacheLookup s.cache ("task:" ++ id) with _ | t
  · rcases h2 : storeFind s.store id with _ | t
    · simp [findOne, getOrSet, taskFetcher, h1, h2]
    · simp [findOne, getOrSet, taskFetcher, h1, h2]
  · simp [findOne, getOrSet, h1]

theorem update_cold (id : String) (dto : UpdateTaskDto) (s : AppState) (t : Task)
    (hc : cacheLookup s.cache ("task:" ++ id) = none)
    (hs : storeFind s.store id = some t) :
    (update id dto s).1 = .ok (applyPatch t dto) ∧
    ((update id dto s).2).cache = cacheInsert s.cache ("task:" ++ id) t ∧
    ((update id dto s).2).store = storeSave s.store (applyPatch t dto) := by
  simp only [update, findOne_cold id s t hc hs]
  split <;> simp

theorem update_warm (id : String) (dto : UpdateTaskDto) (s : AppState) (t : Task)
    (hc : cacheLookup s.cache ("task:" ++ id) = some t) :
    (update id dto s).1 = .ok (applyPatch t dto) ∧
    ((update id dto s).2).cache = s.cache ∧
    ((update id dto s).2).store = storeSave s.store (applyPatch t dto) := by
  simp only [update, findOne_hit id s t hc]
  split <;> simp

/-- One pending task in the store, cold cache, empty queue. -/
def sPending : AppState := { store := [t1ex], cache := [], queue := [] }

/-- One completed task in the store, cold cache, empty queue. -/
def sCompleted : AppState := { store := [tCompleted], cache := [], queue := [] }

/-- A backend whose delete operation fails. -/
def bdDelFail : BackendState :=
  { entries := [], getFails := false, setFails := false, delFails := true }

/-- A backend whose get operation fails. -/
def bdGetFail : BackendState :=
  { entries := [], getFails := true, setFails := false, delFails := false }

/-- A backend whose set operation fails. -/
def bdSetFail : BackendState :=
  { entries := [], getFails := false, setFails := true, delFails := false }

/-- A healthy backend holding, under the namespaced key `app:k`, a cached
string that is not valid JSON. -/
def bdRaw : BackendState :=
  { entries := [("app:k", "notjson")], getFails := false,
    setFails := false, delFails := false }

/-- The message `create` publishes for `dtoCreatePending` under id `b1`. -/
def msgW : QueueMessage := statusMsg (create dtoCreatePending "b1" emptyState).1

theorem findOne_no_conflict (id : String) (s : AppState) :
    (findOne id s).1 ≠ .error .versionConflict := by
  rcases h1 : cacheLookup s.cache ("task:" ++ id) with _ | t
  · rcases h2 : storeFind s.store id with _ | t
    · simp [findOne, getOrSet, taskFetcher, h1, h2]
    · simp [findOne, getOrSet, taskFetcher, h1, h2]
  · simp [findOne, getOrSet, h1]

theorem update_no_conflict (id : String) (dto : UpdateTaskDto) (s : AppState) :
    (update id dto s).1 ≠ .error .versionConflict := by
  rcases hf : findOne id s with ⟨r, s1⟩
  rcases r with e | tk
  · have h := findOne_no_conflict id s
    rw [hf] at h
    simpa [update, hf] using h
  · simp [update, hf]

theorem remove_no_conflict (id : String) (s : AppState) :
    (remove id s).1 ≠ .error .versionConflict := by
  rcases hf : findOne id s with ⟨r, s1⟩
  rcases r with e | tk
  · have h := findOne_no_conflict id s
    rw [hf] at h
    simpa [remove, hf] using h
  · simp [remove, hf]

theorem updateStatus_no_conflict (id : String) (st : TaskStatus) (s : AppState) :
    (updateStatus id st s).1 ≠ .error .versionConflict := by
  rcases hf : findOne id s with ⟨r, s1⟩
  rcases r with e | tk
  · have h := findOne_no_conflict id s
    rw [hf] at h
    simpa [updateStatus, hf] using h
  · simp [updateStatus, hf]

/-!
Claim theorems.  Each claim of the specification is settled against the
embedding above; a corrected claim comes with a closed counterexample to
the claim as stated and a proof of the amended claim.
-/

/-- Claim C1, counterexample: starting from a store holding the pending
task `t1ex` (title `old`) and a cold cache, `update` with a patch that
sets the title to `new` succeeds, yet the next `findOne` returns the
pre-patch task — the read inside `update` populated the cache with the
pre-patch task and `update` never deletes the entry, so the cache entry
for the id is still present and stale. -/
theorem c1_counterexample :
    (update "a1" dtoTitleNew sPending).1 = .ok (applyPatch t1ex dtoTitleNew) ∧
    (applyPatch t1ex dtoTitleNew).title = "new" ∧
    (findOne "a1" ((update "a1" dtoTitleNew sPending).2)).1 = .ok t1ex ∧
    t1ex ≠ applyPatch t1ex dtoTitleNew ∧
    cacheLookup ((update "a1" dtoTitleNew sPending).2).cache ("task:" ++ "a1")
      = some t1ex :=
  ⟨rfl, rfl, rfl, by decide, rfl⟩

/-- Claim C1 (amended): `update` does not invalidate the cache entry for
the id.  For a task in the store with a cold cache entry, `update`
succeeds and stores the patched task, but the read-through inside
`update` has populated the cache with the pre-patch task, the entry is
still there after the mutation, and the next `get` returns the pre-patch
task, not the patched values. -/
theorem c1_update_leaves_stale_cache (s : AppState) (t : Task) (dto : UpdateTaskDto)
    (hs : storeFind s.store t.id = some t)
    (hc : cacheLookup s.cache ("task:" ++ t.id) = none) :
    (update t.id dto s).1 = .ok (applyPatch t dto) ∧
    cacheLookup ((update t.id dto s).2).cache ("task:" ++ t.id) = some t ∧
    (findOne t.id ((update t.id dto s).2)).1 = .ok t := by
  obtain ⟨h1, h2, h3⟩ := update_cold t.id dto s t hc hs
  have hl : cacheLookup ((update t.id dto s).2).cache ("task:" ++ t.id) = some t := by
    rw [h2]
    exact cacheLookup_insert_self s.cache ("task:" ++ t.id) t
  refine ⟨h1, hl, ?_⟩
  rw [findOne_hit t.id ((update t.id dto s).2) t hl]

/-- Claim C1, witness: the amended theorem at the concrete pending task. -/
theorem c1_witness :
    (update t1ex.id dtoTitleNew sPending).1 = .ok (applyPatch t1ex dtoTitleNew) ∧
    cacheLookup ((update t1ex.id dtoTitleNew sPending).2).cache ("task:" ++ t1ex.id)
      = some t1ex ∧
    (findOne t1ex.id ((update t1ex.id dtoTitleNew sPending).2)).1 = .ok t1ex :=
  c1_update_leaves_stale_cache sPending t1ex dtoTitleNew rfl rfl

/-- Claim C2, counterexample: two updates of the same task that both start
from the same observed state (the second reads the value the first read,
via the cache) both succeed; neither receives a version conflict —
last write wins. -/
theorem c2_counterexample :
    (update "a1" dtoTitleNew sPending).1 = .ok (applyPatch t1ex dtoTitleNew) ∧
    (update "a1" dtoEmptyDescription ((update "a1" dtoTitleNew sPending).2)).1
      = .ok (applyPatch t1ex dtoEmptyDescription) :=
  ⟨rfl, rfl⟩

/-- Claim C2 (amended): task records carry no version token and the
service performs no conflict detection: no operation ever fails with a
version conflict, and two updates applied from the same initially
observed task both succeed (the second reads the cached pre-patch task),
so concurrent writes are last-write-wins. -/
theorem c2_no_version_conflict (id : String) (dto dto2 : UpdateTaskDto)
    (st : TaskStatus) (s : AppState) (t : Task) :
    (update id dto s).1 ≠ .error .versionConflict ∧
    (remove id s).1 ≠ .error .versionConflict ∧
    (updateStatus id st s).1 ≠ .error .versionConflict ∧
    (storeFind s.store id = some t →
      cacheLookup s.cache ("task:" ++ id) = none →
      (update id dto s).1 = .ok (applyPatch t dto) ∧
      (update id dto2 ((update id dto s).2)).1 = .ok (applyPatch t dto2)) := by
  refine ⟨update_no_conflict id dto s, remove_no_conflict id s,
    updateStatus_no_conflict id st s, ?_⟩
  intro hs hc
  obtain ⟨h1, h2, _⟩ := update_cold id dto s t hc hs
  have hl : cacheLookup ((update id dto s).2).cache ("task:" ++ id) = some t := by
    rw [h2]
    exact cacheLookup_insert_self s.cache ("task:" ++ id) t
  exact ⟨h1, (update_warm id dto2 ((update id dto s).2) t hl).1⟩

/-- Claim C2, witness: the amended theorem at the concrete pending task,
with the read-state hypotheses discharged. -/
theorem c2_witness :
    (update "a1" dtoTitleNew sPending).1 ≠ .error .versionConflict ∧
    (remove "a1" sPending).1 ≠ .error .versionConflict ∧
    (update "a1" dtoTitleNew sPending).1 = .ok (applyPatch t1ex dtoTitleNew) ∧
    (update "a1" dtoNone ((update "a1" dtoTitleNew sPending).2)).1
      = .ok (applyPatch t1ex dtoNone) := by
  have h := c2_no_version_conflict "a1" dtoTitleNew dtoNone .COMPLETED sPending t1ex
  have h4 := h.2.2.2 rfl rfl
  exact ⟨h.1, h.2.1, h4.1, h4.2⟩

/-- Claim C3, counterexample: a COMPLETED task, updated with status
PENDING, is accepted and persisted — the transition COMPLETED to PENDING
is not rejected. -/
theorem c3_counterexample :
    tCompleted.status = TaskStatus.COMPLETED ∧
    (update "a1" (statusOnlyDto .PENDING) sCompleted).1
      = .ok { tCompleted with status := .PENDING } ∧
    storeFind ((update "a1" (statusOnlyDto .PENDING) sCompleted).2).store "a1"
      = some { tCompleted with status := .PENDING } ∧
    (updateStatus "a1" .PENDING sCompleted).1
      = .ok { tCompleted with status := .PENDING } :=
  ⟨rfl, rfl, rfl, rfl⟩

/-- Claim C3 (amended): no status-transition restriction is enforced.
For every stored task and every supplied target status — whatever the
current status, including COMPLETED to PENDING — `update` and
`updateStatus` accept the transition, return the task with the new
status, and save it to the store. -/
theorem c3_any_transition_accepted (s : AppState) (t : Task) (st : TaskStatus)
    (hs : storeFind s.store t.id = some t)
    (hc : cacheLookup s.cache ("task:" ++ t.id) = none) :
    (update t.id (statusOnlyDto st) s).1 = .ok { t with status := st } ∧
    ((update t.id (statusOnlyDto st) s).2).store
      = storeSave s.store { t with status := st } ∧
    (updateStatus t.id st s).1 = .ok { t with status := st } := by
  have hap : applyPatch t (statusOnlyDto st) = { t with status := st } := rfl
  obtain ⟨h1, _, h3⟩ := update_cold t.id (statusOnlyDto st) s t hc hs
  refine ⟨by rw [h1, hap], by rw [h3, hap], ?_⟩
  simp [updateStatus, findOne_cold t.id s t hc hs]

/-- Claim C3, witness: the amended theorem at the concrete completed task
and target status PENDING. -/
theorem c3_witness :
    (update tCompleted.id (statusOnlyDto .PENDING) sCompleted).1
      = .ok { tCompleted with status := .PENDING } ∧
    ((update tCompleted.id (statusOnlyDto .PENDING) sCompleted).2).store
      = storeSave sCompleted.store { tCompleted with status := .PENDING } ∧
    (updateStatus tCompleted.id .PENDING sCompleted).1
      = .ok { tCompleted with status := .PENDING } :=
  c3_any_transition_accepted sCompleted tCompleted .PENDING rfl rfl

/-- Claim C4, counterexample: after `remove` deletes the pending task,
the id has no corresponding record, yet `findOne` returns the removed
task instead of NotFound — `remove` read the task through the cache
(populating it) and deleted only the store row, leaving a stale cache
entry for a nonexistent record. -/
theorem c4_counterexample :
    (remove "a1" sPending).1 = .ok () ∧
    storeFind ((remove "a1" sPending).2).store "a1" = none ∧
    (findOne "a1" ((remove "a1" sPending).2)).1 = .ok t1ex ∧
    (findOne "a1" ((remove "a1" sPending).2)).1 ≠ .error (.notFound "a1") := by
  refine ⟨rfl, rfl, rfl, ?_⟩
  intro h
  rw [show (findOne "a1" ((remove "a1" sPending).2)).1 = Except.ok t1ex from rfl] at h
  exact Except.noConfusion h

/-- Claim C4 (amended): for an id with no record in the store AND no
cache entry for it, `get` returns NotFound, the NotFound propagates out
of the populate function without being cached (the state, cache
included, is unchanged), and after a task with that id is created the
next `get` returns the created task.  The extra cache-emptiness guard is
needed because `remove` leaves stale cache entries behind. -/
theorem c4_absence_not_cached (x : String) (dto : CreateTaskDto) (s : AppState)
    (hs : storeFind s.store x = none)
    (hc : cacheLookup s.cache ("task:" ++ x) = none) :
    findOne x s = (.error (.notFound x), s) ∧
    (findOne x ((create dto x s).2)).1 = .ok (create dto x s).1 := by
  refine ⟨findOne_miss x s hc hs, ?_⟩
  have hs' : storeFind s.store ((create dto x s).1).id = none := hs
  have hstore : ((create dto x s).2).store = s.store ++ [(create dto x s).1] := by
    show storeSave s.store (create dto x s).1 = s.store ++ [(create dto x s).1]
    unfold storeSave
    rw [show (s.store.find? (fun r => r.id == ((create dto x s).1).id)).isSome = false by
      simp only [storeFind] at hs'
      simp [hs']]
    simp
  have hfind : storeFind ((create dto x s).2).store ((create dto x s).1).id
      = some (create dto x s).1 := by
    rw [hstore]
    exact storeFind_append_new s.store (create dto x s).1 hs'
  have hcache : cacheLookup ((create dto x s).2).cache ("task:" ++ x) = none := hc
  rw [findOne_cold x ((create dto x s).2) (create dto x s).1 hcache hfind]

/-- Claim C4, witness: the amended theorem from the empty state, creating
id `x1`. -/
theorem c4_witness :
    findOne "x1" emptyState = (.error (.notFound "x1"), emptyState) ∧
    (findOne "x1" ((create dtoCreateNoStatus "x1" emptyState).2)).1
      = .ok (create dtoCreateNoStatus "x1" emptyState).1 :=
  c4_absence_not_cached "x1" dtoCreateNoStatus emptyState rfl rfl

/-- Claim C5, counterexample: two concurrent `getOrSet` callers for the
same key on a cold cache, interleaved so that both cache reads happen
before either fetch completes (the natural event-loop interleaving, each
read being an await), both run to completion with the fetched value —
and the populate function runs twice, not exactly once. -/
theorem c5_counterexample :
    (runSchedule 7 [true, false, true, true, false, false] coldStart).a
      = .finished 7 ∧
    (runSchedule 7 [true, false, true, true, false, false] coldStart).b
      = .finished 7 ∧
    (runSchedule 7 [true, false, true, true, false, false] coldStart).shared.fetchCount
      ≠ 1 :=
  ⟨rfl, rfl, by decide⟩

/-- Claim C5 (amended): `getOrSet` has no single-flight coordination — no
in-flight registry exists in `CacheService`, whose only state is the
injected cache manager.  Under the interleaving in which both callers
pass the cache read before either fetch completes, each caller invokes
the populate function, so two concurrent cold-cache reads issue two
store fetches; only a caller whose read finds the key already cached
(here the warm start) fetches nothing. -/
theorem c5_no_single_flight :
    (runSchedule 7 [true, false, true, true, false, false] coldStart).shared.fetchCount
      = 2 ∧
    (runSchedule 7 [true, false, true, true, false, false] coldStart).a
      = .finished 7 ∧
    (runSchedule 7 [true, false, true, true, false, false] coldStart).b
      = .finished 7 ∧
    (runSchedule 7 [true, false] warmStart).shared.fetchCount = 0 ∧
    (runSchedule 7 [true, false] warmStart).a = .finished 5 ∧
    (runSchedule 7 [true, false] warmStart).b = .finished 5 :=
  ⟨rfl, rfl, rfl, rfl, rfl, rfl⟩

/-- Claim C6, counterexample: a task created at the default status
PENDING — where the claim says nothing is published — still causes a
queue publish: the queue goes from empty to holding one
`task-status-update` message. -/
theorem c6_counterexample :
    (create dtoCreatePending "b1" emptyState).1.status = TaskStatus.PENDING ∧
    ((create dtoCreatePending "b1" emptyState).2).queue
      = [statusMsg (create dtoCreatePending "b1" emptyState).1] ∧
    ((create dtoCreatePending "b1" emptyState).2).queue ≠ [] :=
  ⟨rfl, rfl, by decide⟩

/-- Claim C6 (amended): `create` publishes unconditionally: for every
input it appends exactly one `task-status-update` message carrying the
created id and status, whatever the created status is — including the
default PENDING (the created status being the supplied one, defaulted to
PENDING). -/
theorem c6_create_always_publishes (dto : CreateTaskDto) (genId : String)
    (s : AppState) :
    ((create dto genId s).2).queue.length = s.queue.length + 1 ∧
    ((create dto genId s).2).queue.getLast?
      = some (statusMsg (create dto genId s).1) ∧
    (create dto genId s).1.status = dto.status.getD TaskStatus.PENDING := by
  refine ⟨by simp [create], ?_, rfl⟩
  show (s.queue ++ [statusMsg (create dto genId s).1]).getLast? = _
  simp

/-- Claim C7, counterexample: the message `create` publishes goes to the
`task-processing` queue, but its payload has exactly the fields `taskId`
and `status` — there is no `occurredAt` field. -/
theorem c7_counterexample :
    ((create dtoCreatePending "b1" emptyState).2).queue
      = [{ queueName := "task-processing", jobName := "task-status-update",
           payload := [("taskId", "b1"), ("status", "PENDING")] }] ∧
    ¬ ("occurredAt" ∈
        (([("taskId", "b1"), ("status", "PENDING")] : List (String × String)).map
          Prod.fst)) :=
  ⟨rfl, by decide⟩

/-- Claim C7 (amended): every message `create` or `update` adds to the
queue is on the queue named `task-processing`, with job name
`task-status-update`, and its payload fields are exactly `taskId` and
`status` — no `occurredAt` timestamp is carried. -/
theorem c7_payload_shape (dto : CreateTaskDto) (genId id : String)
    (udto : UpdateTaskDto) (s : AppState) (m : QueueMessage) :
    (m ∈ ((create dto genId s).2).queue →
      m ∈ s.queue ∨
        (m.queueName = "task-processing" ∧ m.jobName = "task-status-update" ∧
         m.payload.map Prod.fst = ["taskId", "status"])) ∧
    (m ∈ ((update id udto s).2).queue →
      m ∈ s.queue ∨
        (m.queueName = "task-processing" ∧ m.jobName = "task-status-update" ∧
         m.payload.map Prod.fst = ["taskId", "status"])) := by
  constructor
  · intro hm
    simp only [create, List.mem_append, List.mem_singleton] at hm
    rcases hm with hm | hm
    · exact .inl hm
    · subst hm
      exact .inr ⟨rfl, rfl, rfl⟩
  · intro hm
    rcases hf : findOne id s with ⟨r, s1⟩
    have hq : s1.queue = s.queue := by
      have h := findOne_queue_eq id s
      rw [hf] at h
      exact h
    rcases r with e | tk
    · simp only [update, hf] at hm
      exact .inl (hq ▸ hm)
    · simp only [update, hf] at hm
      split at hm
      · simp only [List.mem_append, List.mem_singleton] at hm
        rcases hm with hm | hm
        · exact .inl (hq ▸ hm)
        · subst hm
          exact .inr ⟨rfl, rfl, rfl⟩
      · exact .inl (hq ▸ hm)

/-- Claim C7, witness: the amended theorem at the message published by a
concrete `create`, with the membership hypothesis discharged. -/
theorem c7_witness :
    msgW ∈ ((create dtoCreatePending "b1" emptyState).2).queue ∧
    (msgW ∈ emptyState.queue ∨
      (msgW.queueName = "task-processing" ∧ msgW.jobName = "task-status-update" ∧
       msgW.payload.map Prod.fst = ["taskId", "status"])) :=
  ⟨by decide,
   (c7_payload_shape dtoCreatePending "b1" "a1" dtoNone emptyState msgW).1 (by decide)⟩

/-- Claim C8, counterexample: a failure of the backend delete propagates
out of `CacheService.delete` to the caller (there is no try/catch around
`cacheManager.del`), and a cached string on which deserialization fails
is returned by `CacheService.get` as the raw string — not treated as a
miss (the catch returns `cached as unknown as T`).  The parse function
models `JSON.parse` at the stored string `notjson`, which is not valid
JSON and therefore throws, i.e. parses to `none`. -/
theorem c8_counterexample :
    svcDelete bdDelFail "task:a1" = .error .backendFailure ∧
    svcGet String (fun _ => none) bdRaw "k" = .ok (some (.raw "notjson")) ∧
    svcGet String (fun _ => none) bdRaw "k" ≠ .ok none := by
  refine ⟨rfl, rfl, ?_⟩
  intro h
  rw [show svcGet String (fun _ => none) bdRaw "k"
      = Except.ok (some (ReadValue.raw "notjson")) from rfl] at h
  simp at h

/-- Claim C8 (amended): only `set` failures are invisible to callers —
the backend set failure is swallowed and the call still resolves.  A
backend failure in `delete` or in `get` propagates to the caller, and a
deserialization failure on a hit makes `get` return the raw cached
string as the value rather than a miss. -/
theorem c8_cache_failure_handling (V : Type) (parse : String → Option V)
    (bd bdD bdG bdH : BackendState) (key data raw : String) (ttl : Nat)
    (hd : bdD.delFails = true)
    (hg : bdG.getFails = true)
    (hh : backendGet bdH (buildKey key) = .ok (some raw))
    (hr : raw ≠ "") (hp : parse raw = none) :
    (svcSet bd key data ttl).isOk = true ∧
    svcDelete bdD key = .error .backendFailure ∧
    svcGet V parse bdG key = .error .backendFailure ∧
    svcGet V parse bdH key = .ok (some (.raw raw)) := by
  refine ⟨?_, ?_, ?_, ?_⟩
  · rcases h : bd.setFails with _ | _ <;>
      simp [svcSet, backendSet, h, Except.isOk, Except.toBool]
  · simp [svcDelete, backendDel, hd]
  · simp [svcGet, backendGet, hg]
  · simp [svcGet, hh, hr, hp]

/-- Claim C8, witness: the amended theorem at concrete backends — one
with a failing set, one with a failing delete, one with a failing get,
and a healthy one holding an unparseable cached string. -/
theorem c8_witness :
    (svcSet bdSetFail "k" "v" 300).isOk = true ∧
    svcDelete bdDelFail "k" = .error .backendFailure ∧
    svcGet String (fun _ => none) bdGetFail "k" = .error .backendFailure ∧
    svcGet String (fun _ => none) bdRaw "k" = .ok (some (.raw "notjson")) :=
  c8_cache_failure_handling String (fun _ => none) bdSetFail bdDelFail bdGetFail bdRaw
    "k" "v" "notjson" 300 rfl rfl rfl (by decide) rfl

/-- Claim C9, counterexample: a patch whose `description` field is
present but is the empty string — a falsy value — is silently skipped:
the update succeeds and the stored description remains `old`, not the
supplied empty string. -/
theorem c9_counterexample :
    dtoEmptyDescription.description = some "" ∧
    (update "a1" dtoEmptyDescription sPending).1 = .ok t1ex ∧
    storeFind ((update "a1" dtoEmptyDescription sPending).2).store "a1" = some t1ex ∧
    t1ex.description = some "old" ∧
    (some "old" : Option String) ≠ some "" :=
  ⟨rfl, rfl, rfl, rfl, by decide⟩

/-- Claim C9 (amended): `update` applies each patch field only when it is
truthy in the JavaScript sense.  A supplied non-empty string field is
stored; a supplied empty string (falsy) is ignored and keeps the prior
value, as does an absent field; the enum fields are applied whenever
present.  The id is never changed, and the resulting task is what gets
saved. -/
theorem c9_truthy_frame (s : AppState) (t : Task) (dto : UpdateTaskDto)
    (hs : storeFind s.store t.id = some t)
    (hc : cacheLookup s.cache ("task:" ++ t.id) = none) :
    (update t.id dto s).1 = .ok (applyPatch t dto) ∧
    ((update t.id dto s).2).store = storeSave s.store (applyPatch t dto) ∧
    (∀ v, dto.title = some v → v ≠ "" → (applyPatch t dto).title = v) ∧
    (dto.title = some "" ∨ dto.title = none → (applyPatch t dto).title = t.title) ∧
    (∀ v, dto.description = some v → v ≠ "" →
      (applyPatch t dto).description = some v) ∧
    (dto.description = some "" ∨ dto.description = none →
      (applyPatch t dto).description = t.description) ∧
    (∀ v, dto.status = some v → (applyPatch t dto).status = v) ∧
    (dto.status = none → (applyPatch t dto).status = t.status) ∧
    (∀ v, dto.priority = some v → (applyPatch t dto).priority = v) ∧
    (dto.priority = none → (applyPatch t dto).priority = t.priority) ∧
    (∀ v, dto.dueDate = some v → v ≠ "" → (applyPatch t dto).dueDate = some v) ∧
    (dto.dueDate = some "" ∨ dto.dueDate = none →
      (applyPatch t dto).dueDate = t.dueDate) ∧
    (applyPatch t dto).id = t.id := by
  obtain ⟨h1, _, h3⟩ := update_cold t.id dto s t hc hs
  refine ⟨h1, h3, ?_, ?_, ?_, ?_, ?_, ?_, ?_, ?_, ?_, ?_, rfl⟩
  · intro v hv hne
    simp [applyPatch, hv, hne]
  · rintro (hv | hv) <;> simp [applyPatch, hv]
  · intro v hv hne
    simp [applyPatch, hv, hne]
  · rintro (hv | hv) <;> simp [applyPatch, hv]
  · intro v hv
    simp [applyPatch, hv]
  · intro hv
    simp [applyPatch, hv]
  · intro v hv
    simp [applyPatch, hv]
  · intro hv
    simp [applyPatch, hv]
  · intro v hv hne
    simp [applyPatch, hv, hne]
  · rintro (hv | hv) <;> simp [applyPatch, hv]

/-- Claim C9, witness: the amended theorem at the concrete pending task,
applied to a patch that supplies a non-empty title: the title is stored
and the description keeps its prior value. -/
theorem c9_witness :
    (update t1ex.id dtoTitleNew sPending).1 = .ok (applyPatch t1ex dtoTitleNew) ∧
    (applyPatch t1ex dtoTitleNew).title = "new" ∧
    (applyPatch t1ex dtoTitleNew).description = t1ex.description := by
  have h := c9_truthy_frame sPending t1ex dtoTitleNew rfl rfl
  exact ⟨h.1, h.2.2.1 "new" rfl (by decide), h.2.2.2.2.2.1 (Or.inr rfl)⟩

/-- Claim C10 (confirmed): for an id with no record in the store and no
cache entry, `update` and `remove` fail with the NotFound raised by the
read-through lookup inside them, and the returned state is exactly the
input state: store, cache and queue are all unchanged, and no queue
publish happened. -/
theorem c10_missing_id_fails_cleanly (id : String) (dto : UpdateTaskDto)
    (s : AppState)
    (hs : storeFind s.store id = none)
    (hc : cacheLookup s.cache ("task:" ++ id) = none) :
    update id dto s = (.error (.notFound id), s) ∧
    remove id s = (.error (.notFound id), s) := by
  have hf := findOne_miss id s hc hs
  constructor
  · simp [update, hf]
  · simp [remove, hf]

/-- Claim C10, witness: the theorem at the empty state and id `x1`. -/
theorem c10_witness :
    update "x1" dtoNone emptyState = (.error (.notFound "x1"), emptyState) ∧
    remove "x1" emptyState = (.error (.notFound "x1"), emptyState) :=
  c10_missing_id_fails_cleanly "x1" dtoNone emptyState rfl rfl

end TaskApp
